import Mathlib

/-!
# Verification of the imakite ranking pipeline

Shallow embedding of the Python scripts `ihc_snapshot_job.py`,
`ihc_ranking_job.py` and `ihc_weekly_ranking_job.py` together with proofs
of the specified properties.

Modelling conventions:

* pandas nullable numbers (a cell that may hold `NaN` / `pd.NA` / `None`)
  are modelled as `Option ℚ`; arithmetic on them propagates `none` exactly
  as pandas propagates `NaN`, and `Series.fillna c` is `Option.getD c`.
* Machine floats are modelled by exact rationals `ℚ`.  None of the claims
  under consideration depends on rounding of binary floats.
* `DataFrame`s are lists of row structures in row order.
-/

namespace Imakite

/-- pandas-style addition on nullable numbers: `NaN` propagates. -/
def nadd (a b : Option ℚ) : Option ℚ :=
  match a, b with
  | some x, some y => some (x + y)
  | _, _ => none

/-- pandas-style subtraction on nullable numbers: `NaN` propagates. -/
def nsub (a b : Option ℚ) : Option ℚ :=
  match a, b with
  | some x, some y => some (x - y)
  | _, _ => none

/-- pandas-style multiplication by a scalar: `NaN` propagates. -/
def nscale (c : ℚ) (a : Option ℚ) : Option ℚ :=
  a.map (fun x => c * x)

/-- Render a natural number with at least two digits (zero padded),
used for the fractional part of a `%.2f` format. -/
def pad2 (n : ℕ) : String :=
  if n < 10 then "0" ++ toString n else toString n

/-- Embedding of Python `f"{x:.2f}"`: round to two decimal places and
render with exactly two fractional digits.  Ties are rounded half away
from zero here; CPython rounds the nearest binary double half-to-even,
but no property below depends on the treatment of exact ties. -/
def format2f (x : ℚ) : String :=
  let n : ℤ := round (|x| * 100)
  let m : ℕ := n.toNat
  (if x < 0 then "-" else "") ++ toString (m / 100) ++ "." ++ pad2 (m % 100)

/-- Embedding of `calculate_change_stats` (`ihc_ranking_job.py` lines
185-201).  `pd.NA` / missing inputs are `none`; the returned `diff` is
`none` exactly when the function leaves it at its initial `pd.NA`.  The
four branches mirror the source's `if pd.notna(...)` cascade. -/
def calculate_change_stats (today_val yesterday_val : Option ℚ) :
    Option ℚ × String :=
  match today_val, yesterday_val with
  | some t, some p =>
      (some (t - p),
        if p ≠ 0 then format2f ((t - p) / p * 100) ++ "%"
        else if t = 0 then "0.00%"
        else "N/A (prev 0)")
  | some t, none => (some t, "N/A (no prev)")
  | none, some p => (some (-p), "N/A (no today)")
  | none, none => (none, "N/A")

/-- Strict "greater" on nullable sort keys, as pandas orders a descending
single-column `sort_values` with `na_position="last"`: any number is
greater than a missing value (`NaN`), a missing value is greater than
nothing, and two equal numbers (or two missing values) are incomparable
ties. -/
def keyGt (a b : Option ℚ) : Bool :=
  match a, b with
  | some x, some y => x > y
  | some _, none => true
  | none, _ => false

/-- Insert `x` into a descending-sorted list: `x` goes after every element
whose key is strictly greater and before the first element whose key is
not.  See `stableSortDesc` for what this does and does not model of
`DataFrame.sort_values(by=col, ascending=False)`. -/
def insertDesc {α : Type} (key : α → Option ℚ) (x : α) : List α → List α
  | [] => [x]
  | y :: ys =>
      if keyGt (key y) (key x) then y :: insertDesc key x ys else x :: y :: ys

/-- Embedding of `DataFrame.sort_values(by=col, ascending=False)` as a
descending sort by a nullable key.  The source calls `sort_values`
without a `kind=` argument, so pandas uses its default
`kind="quicksort"` (numpy introsort), which pandas documents as **not
stable**: the relative order of rows with equal keys is
implementation-defined (numpy keeps it only below its small-array
insertion-sort cutoff).  This embedding must pick one admissible order
for ties; it picks the stable one (equal and `NaN` keys keep their
input order, `NaN` keys last).  No theorem proved over this function
relies on that choice: the properties established downstream — the
per-record cumulative recurrence and the per-artist weekly totals and
row existence — are invariant under any permutation of equal-key rows. -/
def stableSortDesc {α : Type} (key : α → Option ℚ) : List α → List α
  | [] => []
  | x :: xs => insertDesc key x (stableSortDesc key xs)

/-- `reset_index` followed by inserting a 1-based `rank` column: row at
position `i` of the sorted frame receives rank `i + 1`
(`ranking_raw.insert(0, "rank", ranking_raw.index + 1)`). -/
def addRank {α : Type} (l : List α) : List (ℕ × α) :=
  l.enum.map (fun p => (p.1 + 1, p.2))

/-- Worker for `dedupKeepFirst`: drop every row whose key was already
seen, walking the list front to back (the hashtable sweep that pandas
`drop_duplicates(keep="first")` performs). -/
def dedupKeepFirstAux {α β : Type} [DecidableEq β] (key : α → β)
    (seen : List β) : List α → List α
  | [] => []
  | x :: xs =>
      if key x ∈ seen then dedupKeepFirstAux key seen xs
      else x :: dedupKeepFirstAux key (key x :: seen) xs

/-- `DataFrame.drop_duplicates(subset=key, keep="first")`: keep the first
row for every key, preserving row order. -/
def dedupKeepFirst {α β : Type} [DecidableEq β] (key : α → β)
    (l : List α) : List α :=
  dedupKeepFirstAux key [] l

/-- `DataFrame.drop_duplicates(subset=key, keep="last")`: keep the last
row for every key, preserving the relative order of the kept rows. -/
def dedupKeepLast {α β : Type} [DecidableEq β] (key : α → β) (l : List α) : List α :=
  (dedupKeepFirst key l.reverse).reverse

/-- One row of `ihc.artist_snapshots` as fetched by `fetch_snapshot` in
`ihc_ranking_job.py` (lines 137-147), after `set_index("group_id")`.
Numeric cells that may be missing in the store (`NaN` after
`pd.json_normalize`) are `Option ℚ`. -/
structure SnapEntry where
  group_id : String
  spotify_id : String
  name : Option String
  artist_popularity : Option ℚ
  followers : Option ℚ
  track_popularity_sum : Option ℚ
  new_release_count : Option ℚ
deriving Repr, DecidableEq

/-- Index lookup into yesterday's snapshot frame: `.reindex(df_now.index)`
yields the previous-day row for a group id when one exists, else an
all-`NaN` row.  The store is keyed by `(snapshot_date, group_id)`, so at
most one row matches. -/
def prevLookup (prev : List SnapEntry) (g : String) : Option SnapEntry :=
  prev.find? (fun e => e.group_id == g)

/-- `new_artist_ids = df_now.index.difference(df_prev.index)`: a group id
present today is "first seen" when yesterday's frame has no row for it. -/
def isNewArtist (prev : List SnapEntry) (g : String) : Bool :=
  (prevLookup prev g).isNone

/-- One row of `df_diff` in `ihc_ranking_job.py` (lines 229-276): today's
snapshot columns plus the derived momentum columns and the final score. -/
structure DiffRow where
  group_id : String
  spotify_id : String
  name : Option String
  artist_popularity : Option ℚ
  followers : Option ℚ
  track_popularity_sum : Option ℚ
  popularity_delta : ℚ
  followers_ratio : Option ℚ
  track_popularity_sum_ratio : Option ℚ
  new_release_count : Option ℚ
  score : Option ℚ
deriving Repr, DecidableEq

/-- The zero-floor condition of lines 270-276: today's popularity, after
`pd.to_numeric(errors="coerce")`, is missing (`isna`) or in `{0, 1, 2}`
(`isin([0, 1, 2])`). -/
def lowPopularity : Option ℚ → Bool
  | none => true
  | some v => decide (v = 0 ∨ v = 1 ∨ v = 2)

/-- The diff scorer of `ihc_ranking_job.py` lines 229-276, per artist
present today.

* `popularity_delta = today.artist_popularity - prev.artist_popularity`
  (NaN-propagating), overridden to `0` for first-seen artists
  (`df_diff.loc[new_artist_ids, ...] = 0`) and then `fillna(0)`.
* `followers_ratio = (today.followers - prev_filled) / denom` where
  `prev_filled = prev.followers` with missing values filled to 0 and
  `denom = prev_filled.replace(0, 1)`; overridden to `0.0` for first-seen
  artists.  `track_popularity_sum_ratio` is computed identically from the
  track-popularity sums.
* `new_release_count` passes through today's value, overridden to `0`
  for first-seen artists.
* `score = popularity_delta*3.0 + followers_ratio*2.0 +
  track_popularity_sum_ratio*1.0 + new_release_count*0.3`
  (NaN-propagating), overridden to `0` whenever `lowPopularity` holds for
  today's popularity. -/
def diffRow (prev : List SnapEntry) (e : SnapEntry) : DiffRow :=
  let isNew := isNewArtist prev e.group_id
  let p := prevLookup prev e.group_id
  let delta : ℚ :=
    if isNew then 0
    else (nsub e.artist_popularity (p.bind (·.artist_popularity))).getD 0
  let prevFollowers : ℚ := ((p.bind (·.followers)).getD 0)
  let denomFollowers : ℚ := if prevFollowers = 0 then 1 else prevFollowers
  let followersRatio : Option ℚ :=
    if isNew then some 0
    else e.followers.map (fun t => (t - prevFollowers) / denomFollowers)
  let prevTrackSum : ℚ := ((p.bind (·.track_popularity_sum)).getD 0)
  let denomTrackSum : ℚ := if prevTrackSum = 0 then 1 else prevTrackSum
  let trackSumRatio : Option ℚ :=
    if isNew then some 0
    else e.track_popularity_sum.map (fun t => (t - prevTrackSum) / denomTrackSum)
  let releaseCount : Option ℚ :=
    if isNew then some 0 else e.new_release_count
  let rawScore : Option ℚ :=
    nadd (nadd (nadd (some (delta * 3))
      (nscale 2 followersRatio)) (nscale 1 trackSumRatio))
      (nscale (3/10) releaseCount)
  let finalScore : Option ℚ :=
    if lowPopularity e.artist_popularity then some 0 else rawScore
  { group_id := e.group_id
    spotify_id := e.spotify_id
    name := e.name
    artist_popularity := e.artist_popularity
    followers := e.followers
    track_popularity_sum := e.track_popularity_sum
    popularity_delta := delta
    followers_ratio := followersRatio
    track_popularity_sum_ratio := trackSumRatio
    new_release_count := releaseCount
    score := finalScore }

/-- `df_diff` for the whole roster: the scorer applied to every row of
today's snapshot frame, in row order. -/
def diffFrame (today prev : List SnapEntry) : List DiffRow :=
  today.map (diffRow prev)

/-- `ranking_raw` of `ihc_ranking_job.py` lines 278-279: sort `df_diff`
by `score` descending, reset the index and insert the 1-based `rank`
column. -/
def rankingRaw (rows : List DiffRow) : List (ℕ × DiffRow) :=
  addRank (stableSortDesc (fun r => r.score) rows)

/-- Intermediate row of the cumulative merge (`merged` in
`ihc_ranking_job.py` lines 504-507). -/
structure CumRow where
  row : DiffRow
  score_points : Option ℚ
  cumulative_score : ℚ
deriving Repr, DecidableEq

/-- Lines 501-507: `score_points["score_points"] = score_points["score"] * 10`,
then `merged = score_points.merge(df_prev_cumulative, on="group_id",
how="left")` and `merged["cumulative_score"] = merged["cumulative_score"]
.fillna(0) + merged["score_points"].fillna(0)`.  `prevCum` is the prior
date's `cumulative_rankings` store restricted to `cumulative_score`;
the store is keyed by `(snapshot_date, group_id)`, so the left merge on
`group_id` is a lookup. -/
def cumulativeMerge (ranking : List (ℕ × DiffRow))
    (prevCum : String → Option ℚ) : List CumRow :=
  ranking.map (fun p =>
    { row := p.2
      score_points := p.2.score.map (fun x => x * 10)
      cumulative_score :=
        (prevCum p.2.group_id).getD 0 +
          (p.2.score.map (fun x => x * 10)).getD 0 })

/-- One stored row of `ihc.cumulative_rankings` (record loop of
`ihc_ranking_job.py` lines 516-528); `score` in the source record is
`float(row["score_points"])`, kept nullable here because `score_points`
can be `NaN`. -/
structure CumRecord where
  snapshot_date : String
  group_id : String
  rank : ℕ
  artist_name : Option String
  cumulative_score : ℚ
  score_points : Option ℚ
deriving Repr, DecidableEq

/-- Lines 509-528: sort the merged frame by `cumulative_score` descending,
drop the stale `rank` column, insert the fresh 1-based rank and build the
upsert records. -/
def cumulativeRecords (d : String) (ranking : List (ℕ × DiffRow))
    (prevCum : String → Option ℚ) : List CumRecord :=
  (addRank (stableSortDesc (fun r => some r.cumulative_score)
      (cumulativeMerge ranking prevCum))).map
    (fun p =>
      { snapshot_date := d
        group_id := p.2.row.group_id
        rank := p.1
        artist_name := p.2.row.name
        cumulative_score := p.2.cumulative_score
        score_points := p.2.score_points })

/-- One row of `ihc.daily_rankings` as fetched by the weekly job
(`ihc_weekly_ranking_job.py` lines 51-59).  `snapshot_date` is modelled
as a day number: the store holds ISO `YYYY-MM-DD` strings, whose
lexicographic order used by the `gte`/`lte` query filters coincides with
chronological order.  `score` and `artist_popularity` are nullable. -/
structure DailyRankRow where
  snapshot_date : ℤ
  group_id : String
  score : Option ℚ
  artist_popularity : Option ℚ
deriving Repr, DecidableEq

/-- The weekly job's store query (lines 51-58): rows with
`week_start ≤ snapshot_date ≤ week_end` where
`week_start = week_end - timedelta(days=6)`. -/
def weeklyWindow (rows : List DailyRankRow) (week_end : ℤ) : List DailyRankRow :=
  rows.filter (fun r =>
    decide (week_end - 6 ≤ r.snapshot_date) && decide (r.snapshot_date ≤ week_end))

/-- Lines 64-74: `df["score"] = pd.to_numeric(df["score"],
errors="coerce").fillna(0)` followed by
`totals = df.groupby("group_id", as_index=False)["score"].sum()`:
one `(group_id, total)` pair per distinct group id, the total summing the
zero-filled scores of that group's rows.  pandas emits the groups sorted
by key; first-occurrence order is used here — the order is irrelevant
downstream because the ranking re-sorts by `total_score`. -/
def weeklyTotals (rows : List DailyRankRow) : List (String × ℚ) :=
  (dedupKeepFirst (fun g => g) (rows.map (fun r => r.group_id))).map
    (fun g => (g, ((rows.filter (fun r => r.group_id == g)).map
      (fun r => r.score.getD 0)).sum))

/-- Lines 77-82: `df.sort_values(by=["snapshot_date"]).groupby("group_id")
.tail(1)` — per group, the row with the greatest snapshot date, and among
equal dates the one latest in frame order. -/
def latestRow (rows : List DailyRankRow) (g : String) : Option DailyRankRow :=
  (rows.filter (fun r => r.group_id == g)).foldl
    (fun acc r =>
      match acc with
      | none => some r
      | some a => if a.snapshot_date ≤ r.snapshot_date then some r else some a)
    none

/-- One stored row of `ihc.weekly_rankings` (record loop, lines 120-132). -/
structure WeeklyRecord where
  week_end_date : ℤ
  rank : ℕ
  prev_rank : Option ℚ
  group_id : String
  artist_name : Option String
  total_score : ℚ
  artist_popularity : Option ℚ
deriving Repr, DecidableEq

/-- The weekly aggregation of `ihc_weekly_ranking_job.py` lines 63-132:
totals per artist over the window, latest in-window popularity, names
attached from the `imd.groups` registry (`nameMap`), ranking sorted by
`total_score` descending with a fresh 1-based rank, and `prev_rank` looked
up in the stored weekly ranking for `week_end - 7` (`prevWeekRank`). -/
def weeklyRecords (rows : List DailyRankRow) (week_end : ℤ)
    (nameMap : String → Option String) (prevWeekRank : String → Option ℚ) :
    List WeeklyRecord :=
  (addRank (stableSortDesc (fun t => some t.2)
      (weeklyTotals (weeklyWindow rows week_end)))).map
    (fun p =>
      { week_end_date := week_end
        rank := p.1
        prev_rank := prevWeekRank p.2.1
        group_id := p.2.1
        artist_name := nameMap p.2.1
        total_score := p.2.2
        artist_popularity :=
          (latestRow (weeklyWindow rows week_end) p.2.1).bind
            (fun r => r.artist_popularity) })

/-- A top track in the snapshot job.  `album_release_date` is the
album's `release_date` as parsed by `count_recent_releases`
(`ihc_snapshot_job.py` lines 151-169): a day number when the string
parsed as `YYYY-MM-DD`, `YYYY-MM` or `YYYY` (partial-precision dates
parse to the first day of the period), `none` when the `album` or
`release_date` key is missing, the string length is unexpected, or
`strptime` raises.  Integers stay integers in this job, so its numbers
are modelled as `ℤ`. -/
structure Track where
  popularity : ℤ
  album_release_date : Option ℤ
deriving Repr, DecidableEq

/-- Subset of the `GetArtist` payload used by `fetch_snapshot`
(lines 185-188); a missing key is `none` and triggers the `.get`
defaults. -/
structure ArtistInfo where
  name : Option String
  popularity : Option ℤ
  followers_total : Option ℤ
  images : List String
deriving Repr, DecidableEq

/-- The catalog state visible to one fetch pass: per artist id, the
`GetArtist` payload (`none` = the resilient client returned its absence
signal) and the top-tracks payload (`none` = absence or missing
`"tracks"` key), plus `datetime.now().date()` as a day number. -/
structure CatalogEnv where
  artistInfo : String → Option ArtistInfo
  topTracks : String → Option (List Track)
  today : ℤ

/-- `get_top_track_popularities` (lines 129-135): the first `top_n`
(default 5) top tracks and their popularities, or `([], [])` on a failed
request or missing `"tracks"` key. -/
def get_top_track_popularities (data : Option (List Track))
    (top_n : ℕ := 5) : List Track × List ℤ :=
  match data with
  | some tracks =>
      (tracks.take top_n, (tracks.take top_n).map (fun t => t.popularity))
  | none => ([], [])

/-- `count_recent_releases(tracks, days)` (lines 151-169): count the
tracks whose album release date parsed and satisfies
`now - release_date <= timedelta(days=days)`; unparseable dates are
skipped by the `continue` and `except` branches. -/
def count_recent_releases (now : ℤ) (tracks : List Track) (days : ℤ) : ℕ :=
  tracks.countP (fun t =>
    match t.album_release_date with
    | some d => decide (now - d ≤ days)
    | none => false)

/-- `get_artist_image_url_from_info` (lines 138-148): the first image
URL when it is a non-empty string. -/
def get_artist_image_url_from_info (info : Option ArtistInfo) :
    Option String :=
  match info with
  | none => none
  | some i =>
      match i.images with
      | [] => none
      | url :: _ => if url = "" then none else some url

/-- The per-artist metric block appended by `fetch_snapshot`
(lines 182-192). -/
structure SnapVals where
  name : String
  artist_image_url : Option String
  artist_popularity : ℤ
  followers : ℤ
  track_popularity_sum : ℤ
  new_release_count : ℕ
deriving Repr, DecidableEq

/-- One iteration of the `fetch_snapshot` loop for artist id `sp`
(lines 175-192): name defaults to `"N/A"`, popularity and followers to 0,
the track-popularity sum is the sum over the (at most `top_n`) top
tracks, and `new_release_count` counts recent releases among those same
tracks with `days=7`. -/
def fetch_snapshot_row (env : CatalogEnv) (sp : String) : SnapVals :=
  let info := env.artistInfo sp
  let tp := get_top_track_popularities (env.topTracks sp)
  { name := (info.bind (fun i => i.name)).getD "N/A"
    artist_image_url := get_artist_image_url_from_info info
    artist_popularity := (info.bind (fun i => i.popularity)).getD 0
    followers := (info.bind (fun i => i.followers_total)).getD 0
    track_popularity_sum := tp.2.sum
    new_release_count := count_recent_releases env.today tp.1 7 }

/-- `fetch_snapshot(df_ids, token_manager)` (lines 172-193): one row per
roster row, in roster order, keyed by the roster's `spotify_id`. -/
def fetch_snapshot (env : CatalogEnv) (ids : List (String × String)) :
    List (String × SnapVals) :=
  ids.map (fun p => (p.1, fetch_snapshot_row env p.1))

/-- `fetch_spotify_ids` (lines 26-51): raise when the identity registry
returned no rows for the spotify service; otherwise keep the first row
per `spotify_id` (`drop_duplicates(subset="spotify_id")`, default
`keep="first"`).  Rows are `(spotify_id, group_id)` pairs. -/
def fetch_spotify_ids (rows : List (String × String)) :
    Except String (List (String × String)) :=
  if rows.isEmpty then
    Except.error "No data found in imd.external_ids for service=spotify."
  else
    Except.ok (dedupKeepFirst Prod.fst rows)

/-- The incomplete-row predicate of the self-healing loop
(lines 313-316): name still `"N/A"`, or zero followers with positive
popularity. -/
def needsRetry (v : SnapVals) : Bool :=
  v.name == "N/A" ||
    (decide (v.followers = 0) && decide (0 < v.artist_popularity))

/-- `df_snapshot.set_index("spotify_id"); df_snapshot.update(retry_df
.set_index("spotify_id")); df_snapshot.reset_index()` (lines 325-327):
pandas `update` aligns on the index, never adds rows, and overwrites a
cell only when the incoming value is non-NA.  In a `fetch_snapshot`
frame the only cell that can be NA is `artist_image_url` (`None` when
the artist info or its image list is missing) — `name` is always a
string (the `"N/A"` sentinel is a string, not NA) and the numeric
columns are plain integers — so a row whose id re-fetched takes every
retry value except that a missing retry image keeps the earlier image. -/
def updateRows (cur retry : List (String × SnapVals)) :
    List (String × SnapVals) :=
  cur.map (fun r =>
    match retry.find? (fun s => s.1 == r.1) with
    | some s =>
        (r.1, { s.2 with artist_image_url :=
          (s.2.artist_image_url).orElse (fun _ => r.2.artist_image_url) })
    | none => r)

/-- One round of the bounded self-healing loop (lines 312-327): re-fetch
only the ids whose row looks incomplete, against the catalog state `env`
of that round; when no row qualifies the loop has broken out and the
frame is returned unchanged. -/
def retryRound (ids : List (String × String)) (env : CatalogEnv)
    (cur : List (String × SnapVals)) : List (String × SnapVals) :=
  let na := (cur.filter (fun r => needsRetry r.2)).map (fun r => r.1)
  if na.isEmpty then cur
  else updateRows cur
    (fetch_snapshot env (ids.filter (fun p => na.contains p.1)))

/-- The snapshot frame reaching `upsert_snapshots`: the initial pass,
the three retry rounds (each possibly observing a different catalog
state), and `drop_duplicates(subset="spotify_id", keep="last")`
(lines 310-329). -/
def snapshotRows (ids : List (String × String))
    (env0 env1 env2 env3 : CatalogEnv) : List (String × SnapVals) :=
  dedupKeepLast Prod.fst
    (retryRound ids env3 (retryRound ids env2 (retryRound ids env1
      (fetch_snapshot env0 ids))))

/-- One stored row of `ihc.artist_snapshots` (`upsert_snapshots` record
loop, lines 230-243).  All numeric inputs of this job are integers, so
its zero-defaulting `to_int` is the identity on them. -/
structure SnapshotRecord where
  snapshot_date : String
  group_id : String
  spotify_id : String
  name : String
  artist_popularity : ℤ
  followers : ℤ
  track_popularity_sum : ℤ
  new_release_count : ℤ
deriving Repr, DecidableEq

/-- The left merge of the snapshot frame with the identity frame on
`spotify_id` (line 219); the identity frame has unique `spotify_id`s
after `fetch_spotify_ids`, so the merge is a lookup. -/
def groupLookup (ids : List (String × String)) (sp : String) :
    Option String :=
  (ids.find? (fun p => p.1 == sp)).map (fun p => p.2)

/-- `upsert_snapshots` (lines 212-254) up to the store call: merge in
`group_id`, drop (and warn on) rows without one, and build the records
keyed by `(snapshot_date, group_id)`. -/
def upsertSnapshotRecords (rowsSnap : List (String × SnapVals))
    (ids : List (String × String)) (snapshot_date : String) :
    List SnapshotRecord :=
  (rowsSnap.filterMap (fun r =>
    (groupLookup ids r.1).map (fun g => (r, g)))).map
    (fun rg =>
      { snapshot_date := snapshot_date
        group_id := rg.2
        spotify_id := rg.1.1
        name := rg.1.2.name
        artist_popularity := rg.1.2.artist_popularity
        followers := rg.1.2.followers
        track_popularity_sum := rg.1.2.track_popularity_sum
        new_release_count := (rg.1.2.new_release_count : ℤ) })

/-- The `(group_id, image URL)` rows of `update_group_images`
(lines 263-279): attach `group_id`, drop rows without one, keep the last
row per group. -/
def imageRows (rowsSnap : List (String × SnapVals))
    (ids : List (String × String)) : List (String × Option String) :=
  dedupKeepLast Prod.fst
    (rowsSnap.filterMap (fun r =>
      (groupLookup ids r.1).map (fun g => (g, r.2.artist_image_url))))

/-- One fetched row of the previous date's `ihc.daily_rankings`
(`ihc_ranking_job.py` lines 302-309), used both for the prev-rank merge
and for yesterday's stats. -/
structure PrevDailyRow where
  group_id : String
  rank : Option ℚ
  score : Option ℚ
  artist_popularity : Option ℚ
  track_popularity_sum_ratio : Option ℚ
deriving Repr, DecidableEq

/-- `to_int` of the ranking job (lines 166-172): `None` on a missing
value, otherwise Python `int(...)` — truncation toward zero. -/
def to_int (a : Option ℚ) : Option ℤ :=
  a.map (fun x => if 0 ≤ x then ⌊x⌋ else ⌈x⌉)

/-- `df_prev_score` lookup (lines 310-319): the previous date's ranking
row for a group id; the store is keyed by `(snapshot_date, group_id)`,
so the left merge on `group_id` is a lookup. -/
def prevDailyLookup (prevRankings : List PrevDailyRow) (g : String) :
    Option PrevDailyRow :=
  prevRankings.find? (fun e => e.group_id == g)

/-- One row of `ranking_points` (lines 299-344): the ranked row with the
score scaled to points (`score * 10`), the previous date's rank and
points, their delta, and the rising flag
(`score_delta > 50.0`, `False` when the delta is missing — a pandas
`NaN > threshold` comparison is `False`). -/
structure PointsRow where
  rank : ℕ
  prev_rank : Option ℚ
  score : Option ℚ
  score_prev : Option ℚ
  score_delta : Option ℚ
  rising_icon : Bool
  row : DiffRow
deriving Repr, DecidableEq

/-- Lines 299-344: build `ranking_points` from `ranking_raw` and the
previous date's stored rankings. -/
def pointsRows (ranking : List (ℕ × DiffRow))
    (prevRankings : List PrevDailyRow) : List PointsRow :=
  ranking.map (fun p =>
    let pts := p.2.score.map (fun x => x * 10)
    let prev := prevDailyLookup prevRankings p.2.group_id
    let score_prev := prev.bind (fun e => e.score)
    let delta := nsub pts score_prev
    { rank := p.1
      prev_rank := prev.bind (fun e => e.rank)
      score := pts
      score_prev := score_prev
      score_delta := delta
      rising_icon := match delta with
        | some d => decide (d > 50)
        | none => false
      row := p.2 })

/-- One stored row of `ihc.daily_rankings` (record loop, lines 346-369).
`to_float` is the identity on the exact rationals of this model. -/
structure DailyRecord where
  snapshot_date : String
  group_id : String
  rank : Option ℤ
  prev_rank : Option ℤ
  score : Option ℚ
  score_prev : Option ℚ
  score_delta : Option ℚ
  rising_icon : Bool
  artist_name : Option String
  artist_popularity : Option ℤ
  popularity_delta : Option ℤ
  followers : Option ℤ
  followers_ratio : Option ℚ
  new_release_count : Option ℤ
  track_popularity_sum_ratio : Option ℚ
  track_popularity_sum : Option ℤ
deriving Repr, DecidableEq

/-- The record loop of lines 346-369. -/
def dailyRecords (d : String) (pts : List PointsRow) : List DailyRecord :=
  pts.map (fun p =>
    { snapshot_date := d
      group_id := p.row.group_id
      rank := to_int (some (p.rank : ℚ))
      prev_rank := to_int p.prev_rank
      score := p.score
      score_prev := p.score_prev
      score_delta := p.score_delta
      rising_icon := p.rising_icon
      artist_name := p.row.name
      artist_popularity := to_int p.row.artist_popularity
      popularity_delta := to_int (some p.row.popularity_delta)
      followers := to_int p.row.followers
      followers_ratio := p.row.followers_ratio
      new_release_count := to_int p.row.new_release_count
      track_popularity_sum_ratio := p.row.track_popularity_sum_ratio
      track_popularity_sum := to_int p.row.track_popularity_sum })

/-- The stored row of `ihc.daily_stats` (lines 463-481). -/
structure StatsRecord where
  snapshot_date : String
  avg_score : Option ℚ
  count_pop_zero : Option ℤ
  count_tpsr_zero : Option ℤ
  count_both_zero : Option ℤ
  avg_score_prev : Option ℚ
  count_pop_zero_prev : Option ℤ
  count_tpsr_zero_prev : Option ℤ
  count_both_zero_prev : Option ℤ
  avg_score_diff : Option ℚ
  count_pop_zero_diff : Option ℤ
  count_tpsr_zero_diff : Option ℤ
  count_both_zero_diff : Option ℤ
  avg_score_ratio : String
  count_pop_zero_ratio : String
  count_tpsr_zero_ratio : String
  count_both_zero_ratio : String
deriving Repr, DecidableEq

/-- `Series.mean()` with pandas' default `skipna=True`: the mean of the
present values, missing when none are present. -/
def meanOpt (vals : List ℚ) : Option ℚ :=
  if vals.isEmpty then none else some (vals.sum / (vals.length : ℚ))

/-- The stats block of lines 382-481: zero-signal counts and mean score
for today's and yesterday's ranking rows, with `calculate_change_stats`
applied to each of the four metrics.  Yesterday's aggregates are all
`pd.NA` when the previous date had no stored ranking rows. -/
def statsRecord (d : String) (pts : List PointsRow)
    (prevRankings : List PrevDailyRow) : StatsRecord :=
  let popZero : ℕ := pts.countP (fun p => p.row.artist_popularity == some 0)
  let tpsrZero : ℕ :=
    pts.countP (fun p => p.row.track_popularity_sum_ratio == some 0)
  let bothZero : ℕ := pts.countP (fun p =>
    p.row.artist_popularity == some 0 &&
      p.row.track_popularity_sum_ratio == some 0)
  let avgToday := meanOpt (pts.filterMap (fun p => p.score))
  let prevEmpty := prevRankings.isEmpty
  let popZeroPrev : Option ℚ := if prevEmpty then none else
    some ((prevRankings.countP
      (fun e => e.artist_popularity == some 0) : ℚ))
  let tpsrZeroPrev : Option ℚ := if prevEmpty then none else
    some ((prevRankings.countP
      (fun e => e.track_popularity_sum_ratio == some 0) : ℚ))
  let bothZeroPrev : Option ℚ := if prevEmpty then none else
    some ((prevRankings.countP (fun e =>
      e.artist_popularity == some 0 &&
        e.track_popularity_sum_ratio == some 0) : ℚ))
  let avgPrev : Option ℚ := if prevEmpty then none else
    meanOpt (prevRankings.filterMap (fun e => e.score))
  let popStats := calculate_change_stats (some (popZero : ℚ)) popZeroPrev
  let tpsrStats := calculate_change_stats (some (tpsrZero : ℚ)) tpsrZeroPrev
  let bothStats := calculate_change_stats (some (bothZero : ℚ)) bothZeroPrev
  let avgStats := calculate_change_stats avgToday avgPrev
  { snapshot_date := d
    avg_score := avgToday
    count_pop_zero := to_int (some (popZero : ℚ))
    count_tpsr_zero := to_int (some (tpsrZero : ℚ))
    count_both_zero := to_int (some (bothZero : ℚ))
    avg_score_prev := avgPrev
    count_pop_zero_prev := to_int popZeroPrev
    count_tpsr_zero_prev := to_int tpsrZeroPrev
    count_both_zero_prev := to_int bothZeroPrev
    avg_score_diff := avgStats.1
    count_pop_zero_diff := to_int popStats.1
    count_tpsr_zero_diff := to_int tpsrStats.1
    count_both_zero_diff := to_int bothStats.1
    avg_score_ratio := avgStats.2
    count_pop_zero_ratio := popStats.2
    count_tpsr_zero_ratio := tpsrStats.2
    count_both_zero_ratio := bothStats.2 }

/-- One stored row of `ihc.daily_top20` (lines 563-583). -/
structure Top20Record where
  snapshot_date : String
  group_id : String
  rank : ℤ
  artist_name : Option String
  score : Option ℚ
  latest_track_name : Option String
  latest_track_embed_link : Option String
  artist_image_url : Option String
deriving Repr, DecidableEq

/-- Lines 543-583: the top 20 rows of `ranking_points`, joined with the
per-artist extra info fetched from the catalog (`get_latest_track_info`
and `get_artist_image_url`, merged on `spotify_id`). -/
def top20Records (d : String) (pts : List PointsRow)
    (extras : String → String × String × String) : List Top20Record :=
  (pts.take 20).map (fun p =>
    { snapshot_date := d
      group_id := p.row.group_id
      rank := (p.rank : ℤ)
      artist_name := p.row.name
      score := p.score
      latest_track_name := some (extras p.row.spotify_id).1
      latest_track_embed_link := some (extras p.row.spotify_id).2.1
      artist_image_url := some (extras p.row.spotify_id).2.2 })

/-- A store write issued by one of the jobs.  Batching splits a record
list over several upsert calls of at most `batch_size` rows; it is
modelled as a single effect per table, which preserves what the claims
observe (which records are written, and whether anything is written). -/
inductive Effect where
  | upsertDailyRankings (records : List DailyRecord)
  | upsertDailyStats (record : StatsRecord)
  | upsertCumulativeRankings (records : List CumRecord)
  | upsertDailyTop20 (records : List Top20Record)
  | upsertWeeklyRankings (records : List WeeklyRecord)
  | upsertArtistSnapshots (records : List SnapshotRecord)
  | updateGroupImages (rows : List (String × Option String))
deriving Repr

/-- `main()` of `ihc_ranking_job.py` (lines 204-585) as a function from
the data visible to one run to the ordered list of store writes and the
fatal error aborting the run, if any.  The `raise ValueError` on an
empty today-frame (lines 216-217) precedes every write. -/
def rankingMain (snapshot_date : String) (dfNow dfPrev : List SnapEntry)
    (nameMap : String → Option String) (prevRankings : List PrevDailyRow)
    (prevCum : String → Option ℚ)
    (extras : String → String × String × String) :
    List Effect × Option String :=
  if dfNow.isEmpty then
    ([], some ("No snapshot data for " ++ snapshot_date))
  else
    let dfNow2 := dfNow.map (fun e =>
      { e with name := (nameMap e.group_id).orElse (fun _ => e.name) })
    let ranking := rankingRaw (diffFrame dfNow2 dfPrev)
    let pts := pointsRows ranking prevRankings
    ([Effect.upsertDailyRankings (dailyRecords snapshot_date pts),
      Effect.upsertDailyStats (statsRecord snapshot_date pts prevRankings),
      Effect.upsertCumulativeRankings
        (cumulativeRecords snapshot_date ranking prevCum),
      Effect.upsertDailyTop20 (top20Records snapshot_date pts extras)],
      none)

/-- `main()` of `ihc_weekly_ranking_job.py` (lines 43-145): the
`raise ValueError` on an empty window frame (lines 60-61) precedes the
only write. -/
def weeklyMain (rows : List DailyRankRow) (week_end : ℤ)
    (nameMap : String → Option String) (prevWeekRank : String → Option ℚ) :
    List Effect × Option String :=
  if (weeklyWindow rows week_end).isEmpty then
    ([], some "No cumulative_rankings data for the specified week.")
  else
    ([Effect.upsertWeeklyRankings
        (weeklyRecords rows week_end nameMap prevWeekRank)], none)

/-- `main()` of `ihc_snapshot_job.py` (lines 302-338): the exception of
`fetch_spotify_ids` on an empty identity registry precedes every fetch
and write, and the `raise` on an empty record list (lines 245-246)
precedes the upsert. -/
def snapshotMain (rawIds : List (String × String))
    (env0 env1 env2 env3 : CatalogEnv) (snapshot_date : String) :
    List Effect × Option String :=
  match fetch_spotify_ids rawIds with
  | Except.error e => ([], some e)
  | Except.ok ids =>
      let rows := snapshotRows ids env0 env1 env2 env3
      let records := upsertSnapshotRecords rows ids snapshot_date
      if records.isEmpty then ([], some "No records to upsert.")
      else
        ([Effect.upsertArtistSnapshots records,
          Effect.updateGroupImages (imageRows rows ids)], none)

/-- A catalog state in which every request comes back with the absence
signal; used to instantiate runs in concrete scenarios. -/
def envAbsent : CatalogEnv :=
  { artistInfo := fun _ => none, topTracks := fun _ => none, today := 0 }

/-- A catalog state whose every artist has seven top tracks, all released
on collection day: more recent releases than the `top_n = 5` track cap. -/
def envSevenRecent : CatalogEnv :=
  { artistInfo := fun _ => some
      { name := some "A", popularity := some 50, followers_total := some 100
        images := [] }
    topTracks := fun _ => some
      (List.replicate 7 { popularity := 10, album_release_date := some 0 })
    today := 0 }

/-- A network outcome observed by one attempt of `make_spotify_request`:
either `requests.get` (or the nested token fetch) raised a transport
error (`requests.exceptions.RequestException`), or a response arrived
with a status code, an optional integral `Retry-After` header and a
parsed JSON body (abstracted to a number). -/
inductive HttpEvent where
  | transportError
  | resp (status : ℕ) (retryAfter : Option ℕ) (body : ℕ)
deriving Repr, DecidableEq

/-- The world as seen by one logical `make_spotify_request` call:
whether `TokenManager.get_token()` yields a token at loop iteration `i`,
the network outcome of iteration `i`, and the jitter
`random.uniform(0, 1)` drawn at iteration `i` (a value in `[0, 1)`). -/
structure RequestEnv where
  tokenAvailable : ℕ → Bool
  event : ℕ → HttpEvent
  jitter : ℕ → ℚ

/-- The observable outcome of `make_spotify_request`: the parsed body
(`return response.json()`), the absence signal (`return None`), or an
exception escaping the function. -/
inductive ReqOutcome where
  | payload (body : ℕ)
  | absent
  | raised
deriving Repr, DecidableEq

/-- Outcome of a run together with the sleeps performed, in order, and
the number of loop iterations consumed. -/
structure ReqRun where
  outcome : ReqOutcome
  sleeps : List ℚ
  attempts : ℕ
deriving Repr, DecidableEq

/-- The retry loop of `make_spotify_request` (`ihc_ranking_job.py` lines
67-99; the copy in `ihc_snapshot_job.py` lines 90-121 differs only in
forcing a token refresh before the 401 `continue`, a token-manager state
change that `tokenAvailable` already abstracts).  Branches in source
order:

* no token → `raise Exception("Token not available")`; a plain
  `Exception` is not a `requests.exceptions.RequestException`, so the
  `except` clause does not catch it and it escapes the function;
* status 200 → return the parsed body;
* status 401 → `continue` (no sleep, one attempt consumed);
* status 429 → sleep `Retry-After` (default 5) and loop;
* status ≥ 500 → sleep `2**attempt + random.uniform(0, 1)` and loop;
* any other status → return `None` immediately;
* transport exception → sleep `2**attempt + random.uniform(0, 1)` and
  loop;
* loop exhausted → return `None`. -/
def make_spotify_request_go (env : RequestEnv) :
    ℕ → ℕ → List ℚ → ReqRun
  | 0, attempt, sleeps => ⟨ReqOutcome.absent, sleeps, attempt⟩
  | fuel + 1, attempt, sleeps =>
      if env.tokenAvailable attempt then
        match env.event attempt with
        | HttpEvent.transportError =>
            make_spotify_request_go env fuel (attempt + 1)
              (sleeps ++ [(2 : ℚ) ^ attempt + env.jitter attempt])
        | HttpEvent.resp status retryAfter body =>
            if status = 200 then
              ⟨ReqOutcome.payload body, sleeps, attempt + 1⟩
            else if status = 401 then
              make_spotify_request_go env fuel (attempt + 1) sleeps
            else if status = 429 then
              make_spotify_request_go env fuel (attempt + 1)
                (sleeps ++ [((retryAfter.getD 5 : ℕ) : ℚ)])
            else if 500 ≤ status then
              make_spotify_request_go env fuel (attempt + 1)
                (sleeps ++ [(2 : ℚ) ^ attempt + env.jitter attempt])
            else ⟨ReqOutcome.absent, sleeps, attempt + 1⟩
      else ⟨ReqOutcome.raised, sleeps, attempt + 1⟩

/-- `make_spotify_request(url, token_manager, max_retries=5)`:
`for attempt in range(max_retries)` with the default `max_retries = 5`. -/
def make_spotify_request (env : RequestEnv) : ReqRun :=
  make_spotify_request_go env 5 0 []

-- ## Theorems

/-- C7: `calculate_change_stats` follows the specified four-case
precedence on its two optional inputs: both present gives
`diff = today − prev` with the ratio formatted as a two-decimal percent of
`prev`, except `prev = 0, today = 0` gives `"0.00%"` and
`prev = 0, today ≠ 0` gives `"N/A (prev 0)"`; only today present gives
`diff = today` and `"N/A (no prev)"`; only prev present gives
`diff = −prev` and `"N/A (no today)"`; neither present gives a missing
diff and `"N/A"`. -/
theorem C7_change_stats_cases (tv pv : ℚ) :
    ((calculate_change_stats (some tv) (some pv)).1 = some (tv - pv) ∧
      (pv ≠ 0 →
        (calculate_change_stats (some tv) (some pv)).2 =
          format2f ((tv - pv) / pv * 100) ++ "%") ∧
      (pv = 0 → tv = 0 →
        (calculate_change_stats (some tv) (some pv)).2 = "0.00%") ∧
      (pv = 0 → tv ≠ 0 →
        (calculate_change_stats (some tv) (some pv)).2 = "N/A (prev 0)")) ∧
    calculate_change_stats (some tv) none = (some tv, "N/A (no prev)") ∧
    calculate_change_stats none (some pv) = (some (-pv), "N/A (no today)") ∧
    calculate_change_stats none none = (none, "N/A") := by
  refine ⟨⟨rfl, ?_, ?_, ?_⟩, rfl, rfl, rfl⟩
  · intro hp
    simp [calculate_change_stats, hp]
  · intro hp ht
    simp [calculate_change_stats, hp, ht]
  · intro hp ht
    simp [calculate_change_stats, hp, ht]

/-- Witness for C7 at the test vectors of the specification:
`today=10, prev=0` gives `"N/A (prev 0)"`; `today=0, prev=0` gives
`"0.00%"`; `today=None, prev=5` gives `diff = -5` and `"N/A (no today)"`. -/
theorem C7_change_stats_witness :
    (calculate_change_stats (some 10) (some 0)).2 = "N/A (prev 0)" ∧
    (calculate_change_stats (some 0) (some 0)).2 = "0.00%" ∧
    calculate_change_stats none (some 5) = (some (-5), "N/A (no today)") :=
  ⟨(C7_change_stats_cases 10 0).1.2.2.2 rfl (by norm_num),
    (C7_change_stats_cases 0 0).1.2.2.1 rfl rfl,
    (C7_change_stats_cases 0 5).2.2.1⟩


/-- C4: the zero-floor rule.  For every artist whose today's popularity is
missing or equals 0, 1 or 2, the final score produced by the diff scorer
is exactly 0, whatever the values of `popularity_delta`,
`followers_ratio`, `track_popularity_sum_ratio` and `new_release_count`
are. -/
theorem C4_zero_floor (prev : List SnapEntry) (e : SnapEntry)
    (h : e.artist_popularity = none ∨ e.artist_popularity = some 0 ∨
      e.artist_popularity = some 1 ∨ e.artist_popularity = some 2) :
    (diffRow prev e).score = some 0 := by
  have hlow : lowPopularity e.artist_popularity = true := by
    rcases h with h | h | h | h <;> simp [h, lowPopularity]
  simp [diffRow, hlow]

/-- Witness for C4: an artist with popularity 2 and large momentum
components still scores exactly 0. -/
theorem C4_zero_floor_witness :
    (diffRow []
      { group_id := "g1", spotify_id := "sp1", name := some "A"
        artist_popularity := some 2, followers := some 1000000
        track_popularity_sum := some 400
        new_release_count := some 5 }).score = some 0 :=
  C4_zero_floor [] _ (Or.inr (Or.inr (Or.inr rfl)))

/-- C5: first-seen artists.  For every artist present today whose group id
has no row in yesterday's snapshot, the diff scorer outputs
`popularity_delta = 0`, `followers_ratio = 0.0`,
`track_popularity_sum_ratio = 0.0` and `new_release_count = 0`,
regardless of today's raw values. -/
theorem C5_first_seen_zeroes (prev : List SnapEntry) (e : SnapEntry)
    (h : prevLookup prev e.group_id = none) :
    (diffRow prev e).popularity_delta = 0 ∧
    (diffRow prev e).followers_ratio = some 0 ∧
    (diffRow prev e).track_popularity_sum_ratio = some 0 ∧
    (diffRow prev e).new_release_count = some 0 := by
  have hnew : isNewArtist prev e.group_id = true := by
    simp [isNewArtist, h]
  refine ⟨?_, ?_, ?_, ?_⟩ <;> simp [diffRow, hnew]

/-- Witness for C5: an artist absent from yesterday's (non-empty)
snapshot gets all four momentum fields forced to 0 despite large raw
values today. -/
theorem C5_first_seen_zeroes_witness :
    prevLookup
        [{ group_id := "g2", spotify_id := "sp2", name := some "B"
           artist_popularity := some 50, followers := some 10
           track_popularity_sum := some 10, new_release_count := some 1 }]
        "g1" = none ∧
    ((diffRow
        [{ group_id := "g2", spotify_id := "sp2", name := some "B"
           artist_popularity := some 50, followers := some 10
           track_popularity_sum := some 10, new_release_count := some 1 }]
        { group_id := "g1", spotify_id := "sp1", name := some "A"
          artist_popularity := some 90, followers := some 1000000
          track_popularity_sum := some 400
          new_release_count := some 5 }).popularity_delta = 0 ∧
      (diffRow
        [{ group_id := "g2", spotify_id := "sp2", name := some "B"
           artist_popularity := some 50, followers := some 10
           track_popularity_sum := some 10, new_release_count := some 1 }]
        { group_id := "g1", spotify_id := "sp1", name := some "A"
          artist_popularity := some 90, followers := some 1000000
          track_popularity_sum := some 400
          new_release_count := some 5 }).followers_ratio = some 0 ∧
      (diffRow
        [{ group_id := "g2", spotify_id := "sp2", name := some "B"
           artist_popularity := some 50, followers := some 10
           track_popularity_sum := some 10, new_release_count := some 1 }]
        { group_id := "g1", spotify_id := "sp1", name := some "A"
          artist_popularity := some 90, followers := some 1000000
          track_popularity_sum := some 400
          new_release_count := some 5 }).track_popularity_sum_ratio = some 0 ∧
      (diffRow
        [{ group_id := "g2", spotify_id := "sp2", name := some "B"
           artist_popularity := some 50, followers := some 10
           track_popularity_sum := some 10, new_release_count := some 1 }]
        { group_id := "g1", spotify_id := "sp1", name := some "A"
          artist_popularity := some 90, followers := some 1000000
          track_popularity_sum := some 400
          new_release_count := some 5 }).new_release_count = some 0) :=
  ⟨rfl, C5_first_seen_zeroes _ _ rfl⟩

-- ### Descending sort: permutation and membership

theorem insertDesc_perm {α : Type} (key : α → Option ℚ) (x : α) (l : List α) :
    (insertDesc key x l).Perm (x :: l) := by
  induction l with
  | nil => simp [insertDesc]
  | cons y ys ih =>
      simp only [insertDesc]
      by_cases h : keyGt (key y) (key x) = true
      · simp only [h, if_true]
        exact ((ih.cons y).trans (List.Perm.swap x y ys))
      · rw [if_neg h]

theorem stableSortDesc_perm {α : Type} (key : α → Option ℚ) (l : List α) :
    (stableSortDesc key l).Perm l := by
  induction l with
  | nil => simp [stableSortDesc]
  | cons x xs ih =>
      exact (insertDesc_perm key x (stableSortDesc key xs)).trans (ih.cons x)

theorem mem_stableSortDesc {α : Type} {key : α → Option ℚ} {z : α} {l : List α} :
    z ∈ stableSortDesc key l ↔ z ∈ l :=
  (stableSortDesc_perm key l).mem_iff

theorem addRank_map_snd {α : Type} (l : List α) :
    (addRank l).map Prod.snd = l := by
  have h1 : (Prod.snd ∘ fun p : ℕ × α => (p.1 + 1, p.2)) = Prod.snd := rfl
  simp only [addRank, List.map_map, h1, List.enum_map_snd]

theorem mem_addRank_snd {α : Type} {l : List α} {p : ℕ × α}
    (h : p ∈ addRank l) : p.2 ∈ l := by
  have h1 : p.2 ∈ (addRank l).map Prod.snd := List.mem_map_of_mem Prod.snd h
  rwa [addRank_map_snd] at h1

/-- C2: the cumulative aggregator.  Every `cumulative_rankings` row
written for a date satisfies
`cumulative_score = prev cumulative (default 0 if absent) + score_points
(default 0 if absent)`, for every prior-date cumulative table and every
ranking — in particular also when `score_points` is negative. -/
theorem C2_cumulative_recurrence (d : String) (ranking : List (ℕ × DiffRow))
    (prevCum : String → Option ℚ) (rec : CumRecord)
    (h : rec ∈ cumulativeRecords d ranking prevCum) :
    rec.cumulative_score =
      (prevCum rec.group_id).getD 0 + rec.score_points.getD 0 := by
  rw [cumulativeRecords] at h
  obtain ⟨p, hp, hrec⟩ := List.mem_map.mp h
  have hc : p.2 ∈ cumulativeMerge ranking prevCum :=
    mem_stableSortDesc.mp (mem_addRank_snd hp)
  rw [cumulativeMerge] at hc
  obtain ⟨q, _, hq⟩ := List.mem_map.mp hc
  subst hrec
  rw [← hq]

/-- Witness for C2 with a negative daily score: the artist carries a prior
cumulative score of 10, today's `score_points` is `-5`, and the stored
cumulative score is `10 + (-5) = 5` — strictly smaller than yesterday's
total. -/
theorem C2_cumulative_recurrence_witness :
    ({ snapshot_date := "2024-01-02", group_id := "g1", rank := 1
       artist_name := some "A", cumulative_score := 5
       score_points := some (-5) } : CumRecord).cumulative_score =
      ((fun g => if g = "g1" then some (10 : ℚ) else none)
        ({ snapshot_date := "2024-01-02", group_id := "g1", rank := 1
           artist_name := some "A", cumulative_score := 5
           score_points := some (-5) } : CumRecord).group_id).getD 0 +
      ({ snapshot_date := "2024-01-02", group_id := "g1", rank := 1
         artist_name := some "A", cumulative_score := 5
         score_points := some (-5) } : CumRecord).score_points.getD 0 ∧
    ({ snapshot_date := "2024-01-02", group_id := "g1", rank := 1
       artist_name := some "A", cumulative_score := 5
       score_points := some (-5) } : CumRecord).cumulative_score < 10 := by
  constructor
  · refine C2_cumulative_recurrence "2024-01-02"
      [(1, { group_id := "g1", spotify_id := "sa", name := some "A"
             artist_popularity := some 50, followers := some 10
             track_popularity_sum := some 10, popularity_delta := 0
             followers_ratio := some 0, track_popularity_sum_ratio := some 0
             new_release_count := some 0, score := some (-1/2) })]
      (fun g => if g = "g1" then some (10 : ℚ) else none) _ ?_
    have h1 : cumulativeRecords "2024-01-02"
        [(1, { group_id := "g1", spotify_id := "sa", name := some "A"
               artist_popularity := some 50, followers := some 10
               track_popularity_sum := some 10, popularity_delta := 0
               followers_ratio := some 0, track_popularity_sum_ratio := some 0
               new_release_count := some 0, score := some (-1/2) })]
        (fun g => if g = "g1" then some (10 : ℚ) else none) =
        [{ snapshot_date := "2024-01-02", group_id := "g1", rank := 1
           artist_name := some "A", cumulative_score := 5
           score_points := some (-5) }] := by
      simp only [cumulativeRecords, cumulativeMerge, stableSortDesc,
        insertDesc, addRank, List.map_cons, List.map_nil, List.enum,
        List.enumFrom]
      norm_num
    rw [h1]
    exact List.mem_singleton.mpr rfl
  · norm_num

theorem dedupKeepFirstAux_subset {α β : Type} [DecidableEq β]
    (key : α → β) (l : List α) :
    ∀ (seen : List β) {a : α}, a ∈ dedupKeepFirstAux key seen l → a ∈ l := by
  induction l with
  | nil =>
      intro seen a ha
      simp [dedupKeepFirstAux] at ha
  | cons x xs ih =>
      intro seen a ha
      rw [dedupKeepFirstAux] at ha
      by_cases hx : key x ∈ seen
      · rw [if_pos hx] at ha
        exact List.mem_cons_of_mem x (ih seen ha)
      · rw [if_neg hx] at ha
        rcases List.mem_cons.mp ha with ha | ha
        · exact ha ▸ List.mem_cons_self x xs
        · exact List.mem_cons_of_mem x (ih _ ha)

theorem dedupKeepFirst_subset {α β : Type} [DecidableEq β] (key : α → β)
    (l : List α) : ∀ {a : α}, a ∈ dedupKeepFirst key l → a ∈ l :=
  fun ha => dedupKeepFirstAux_subset key l [] ha

theorem dedupKeepFirstAux_covers {α β : Type} [DecidableEq β]
    (key : α → β) (l : List α) :
    ∀ (seen : List β) {a : α}, a ∈ l → key a ∉ seen →
      ∃ b ∈ dedupKeepFirstAux key seen l, key b = key a := by
  induction l with
  | nil =>
      intro seen a ha _
      simp at ha
  | cons x xs ih =>
      intro seen a ha hseen
      rw [dedupKeepFirstAux]
      rcases List.mem_cons.mp ha with ha | ha
      · subst ha
        rw [if_neg hseen]
        exact ⟨a, List.mem_cons_self _ _, rfl⟩
      · by_cases hx : key x ∈ seen
        · rw [if_pos hx]
          exact ih seen ha hseen
        · rw [if_neg hx]
          by_cases hk : key a = key x
          · exact ⟨x, List.mem_cons_self _ _, hk.symm⟩
          · have hseen2 : key a ∉ key x :: seen := by
              intro hmem
              rcases List.mem_cons.mp hmem with hmem | hmem
              · exact hk hmem
              · exact hseen hmem
            obtain ⟨b, hb1, hb2⟩ := ih (key x :: seen) ha hseen2
            exact ⟨b, List.mem_cons_of_mem _ hb1, hb2⟩

theorem dedupKeepFirst_covers {α β : Type} [DecidableEq β] (key : α → β)
    (l : List α) :
    ∀ {a : α}, a ∈ l → ∃ b ∈ dedupKeepFirst key l, key b = key a :=
  fun ha => dedupKeepFirstAux_covers key l [] ha (by simp)

theorem dedupKeepFirstAux_keys_nodup {α β : Type} [DecidableEq β]
    (key : α → β) (l : List α) :
    ∀ (seen : List β),
      ((dedupKeepFirstAux key seen l).map key).Nodup ∧
      ∀ b ∈ dedupKeepFirstAux key seen l, key b ∉ seen := by
  induction l with
  | nil =>
      intro seen
      simp [dedupKeepFirstAux]
  | cons x xs ih =>
      intro seen
      rw [dedupKeepFirstAux]
      by_cases hx : key x ∈ seen
      · rw [if_pos hx]
        exact ih seen
      · rw [if_neg hx]
        obtain ⟨hnd, hnotin⟩ := ih (key x :: seen)
        refine ⟨?_, ?_⟩
        · simp only [List.map_cons, List.nodup_cons]
          refine ⟨?_, hnd⟩
          intro hmem
          obtain ⟨b, hb, hkb⟩ := List.mem_map.mp hmem
          exact hnotin b hb (hkb ▸ List.mem_cons_self _ _)
        · intro b hb
          rcases List.mem_cons.mp hb with hb | hb
          · exact hb ▸ hx
          · intro hmem
            exact hnotin b hb (List.mem_cons_of_mem _ hmem)

theorem dedupKeepFirst_keys_nodup {α β : Type} [DecidableEq β]
    (key : α → β) (l : List α) :
    ((dedupKeepFirst key l).map key).Nodup :=
  (dedupKeepFirstAux_keys_nodup key l []).1

/-- C6: the weekly aggregator.  Every stored weekly row's `total_score`
equals the sum of the zero-filled scores over exactly the daily-ranking
rows of that artist whose snapshot date lies in the inclusive window
`[week_end − 6, week_end]`; and every artist owning at least one row in
the window receives a weekly row — days without rows contribute nothing
and cause no error. -/
theorem C6_weekly_total (rows : List DailyRankRow) (week_end : ℤ)
    (nameMap : String → Option String) (prevWeekRank : String → Option ℚ) :
    (∀ rec ∈ weeklyRecords rows week_end nameMap prevWeekRank,
      rec.total_score =
        ((rows.filter (fun r => r.group_id == rec.group_id &&
            (decide (week_end - 6 ≤ r.snapshot_date) &&
              decide (r.snapshot_date ≤ week_end)))).map
          (fun r => r.score.getD 0)).sum) ∧
    (∀ r ∈ rows, week_end - 6 ≤ r.snapshot_date → r.snapshot_date ≤ week_end →
      ∃ rec ∈ weeklyRecords rows week_end nameMap prevWeekRank,
        rec.group_id = r.group_id) := by
  constructor
  · intro rec hrec
    rw [weeklyRecords] at hrec
    obtain ⟨p, hp, hbuild⟩ := List.mem_map.mp hrec
    have ht : p.2 ∈ weeklyTotals (weeklyWindow rows week_end) :=
      mem_stableSortDesc.mp (mem_addRank_snd hp)
    rw [weeklyTotals] at ht
    obtain ⟨g, _, hg⟩ := List.mem_map.mp ht
    have hgroup : rec.group_id = g := by rw [← hbuild, ← hg]
    have htotal : rec.total_score =
        (((weeklyWindow rows week_end).filter
            (fun r => r.group_id == g)).map (fun r => r.score.getD 0)).sum := by
      rw [← hbuild, ← hg]
    rw [htotal, hgroup, weeklyWindow, List.filter_filter]
  · intro r hr h1 h2
    have hrw : r ∈ weeklyWindow rows week_end := by
      rw [weeklyWindow]
      refine List.mem_filter.mpr ⟨hr, ?_⟩
      simp [h1, h2]
    have hg : r.group_id ∈ (weeklyWindow rows week_end).map
        (fun r => r.group_id) := List.mem_map_of_mem _ hrw
    obtain ⟨g, hgd, hgeq⟩ :=
      dedupKeepFirst_covers (fun g => g) _ hg
    have htot : (g, (((weeklyWindow rows week_end).filter
        (fun x => x.group_id == g)).map (fun x => x.score.getD 0)).sum) ∈
        weeklyTotals (weeklyWindow rows week_end) := by
      rw [weeklyTotals]
      exact List.mem_map_of_mem _ hgd
    have hsort : (g, (((weeklyWindow rows week_end).filter
        (fun x => x.group_id == g)).map (fun x => x.score.getD 0)).sum) ∈
        stableSortDesc (fun t => some t.2)
          (weeklyTotals (weeklyWindow rows week_end)) :=
      mem_stableSortDesc.mpr htot
    have hsort2 : (g, (((weeklyWindow rows week_end).filter
        (fun x => x.group_id == g)).map (fun x => x.score.getD 0)).sum) ∈
        (addRank (stableSortDesc (fun t => some t.2)
          (weeklyTotals (weeklyWindow rows week_end)))).map Prod.snd := by
      rw [addRank_map_snd]
      exact hsort
    obtain ⟨p, hp, hpsnd⟩ := List.mem_map.mp hsort2
    refine ⟨{ week_end_date := week_end, rank := p.1
              prev_rank := prevWeekRank p.2.1, group_id := p.2.1
              artist_name := nameMap p.2.1, total_score := p.2.2
              artist_popularity :=
                (latestRow (weeklyWindow rows week_end) p.2.1).bind
                  (fun x => x.artist_popularity) }, ?_, ?_⟩
    · rw [weeklyRecords]
      exact List.mem_map_of_mem _ hp
    · show p.2.1 = r.group_id
      rw [hpsnd, hgeq]

/-- Witness for C6: week window `[1, 7]`; artist `"g1"` has daily rows on
only days 1 and 3 of the window (scores 2 and 3) plus one out-of-window
row on day 0 (score 100); the weekly total is exactly `2 + 3 = 5`. -/
theorem C6_weekly_total_witness :
    ({ week_end_date := 7, rank := 1, prev_rank := none, group_id := "g1"
       artist_name := none, total_score := 5
       artist_popularity := some 50 } : WeeklyRecord).total_score =
      ((([{ snapshot_date := 0, group_id := "g1", score := some 100
            artist_popularity := some 40 },
          { snapshot_date := 1, group_id := "g1", score := some 2
            artist_popularity := some 45 },
          { snapshot_date := 3, group_id := "g1", score := some 3
            artist_popularity := some 50 }] : List DailyRankRow).filter
          (fun r => r.group_id ==
              ({ week_end_date := 7, rank := 1, prev_rank := none
                 group_id := "g1", artist_name := none, total_score := 5
                 artist_popularity := some 50 } : WeeklyRecord).group_id &&
            (decide ((7 : ℤ) - 6 ≤ r.snapshot_date) &&
              decide (r.snapshot_date ≤ (7 : ℤ))))).map
        (fun r => r.score.getD 0)).sum ∧
    ({ week_end_date := 7, rank := 1, prev_rank := none, group_id := "g1"
       artist_name := none, total_score := 5
       artist_popularity := some 50 } : WeeklyRecord).total_score = 2 + 3 := by
  constructor
  · refine (C6_weekly_total
      [{ snapshot_date := 0, group_id := "g1", score := some 100
         artist_popularity := some 40 },
       { snapshot_date := 1, group_id := "g1", score := some 2
         artist_popularity := some 45 },
       { snapshot_date := 3, group_id := "g1", score := some 3
         artist_popularity := some 50 }] 7 (fun _ => none)
      (fun _ => none)).1 _ ?_
    have h1 : weeklyRecords
        [{ snapshot_date := 0, group_id := "g1", score := some 100
           artist_popularity := some 40 },
         { snapshot_date := 1, group_id := "g1", score := some 2
           artist_popularity := some 45 },
         { snapshot_date := 3, group_id := "g1", score := some 3
           artist_popularity := some 50 }] 7 (fun _ => none) (fun _ => none) =
        [{ week_end_date := 7, rank := 1, prev_rank := none, group_id := "g1"
           artist_name := none, total_score := 5
           artist_popularity := some 50 }] := by
      simp only [weeklyRecords, weeklyWindow, weeklyTotals, latestRow,
        dedupKeepFirst, dedupKeepFirstAux, stableSortDesc, insertDesc,
        addRank, List.filter, List.map_cons, List.map_nil, List.enum,
        List.enumFrom]
      norm_num [dedupKeepFirstAux]
    rw [h1]
    exact List.mem_singleton.mpr rfl
  · norm_num

/-- C1: evaluation of `make_spotify_request` on the four decisive
scenarios.  A 200 on the first attempt returns the parsed body with no
sleep; a 404 returns the absence signal immediately, with no sleep and no
further attempt; five straight 500s exhaust the attempts and return the
absence signal; but when token acquisition yields no token, the function
raises `Exception("Token not available")`, which is not a
`requests.exceptions.RequestException` and escapes the layer instead of
being treated as a retryable failure — refuting the claim that nothing
ever raises out of this layer. -/
theorem C1_make_spotify_request_eval :
    make_spotify_request
      { tokenAvailable := fun _ => false
        event := fun _ => HttpEvent.resp 200 none 7
        jitter := fun _ => 0 } =
      { outcome := ReqOutcome.raised, sleeps := [], attempts := 1 } ∧
    make_spotify_request
      { tokenAvailable := fun _ => true
        event := fun _ => HttpEvent.resp 200 none 7
        jitter := fun _ => 0 } =
      { outcome := ReqOutcome.payload 7, sleeps := [], attempts := 1 } ∧
    make_spotify_request
      { tokenAvailable := fun _ => true
        event := fun _ => HttpEvent.resp 404 none 7
        jitter := fun _ => 0 } =
      { outcome := ReqOutcome.absent, sleeps := [], attempts := 1 } ∧
    (make_spotify_request
      { tokenAvailable := fun _ => true
        event := fun _ => HttpEvent.resp 500 none 7
        jitter := fun _ => 0 }).outcome = ReqOutcome.absent ∧
    (make_spotify_request
      { tokenAvailable := fun _ => true
        event := fun _ => HttpEvent.resp 500 none 7
        jitter := fun _ => 0 }).attempts = 5 ∧
    (make_spotify_request
      { tokenAvailable := fun _ => true
        event := fun _ => HttpEvent.resp 500 none 7
        jitter := fun _ => 0 }).sleeps.length = 5 :=
  ⟨rfl, rfl, rfl, rfl, rfl, rfl⟩

/-- C9: missing required upstream data aborts before anything is
persisted.  An empty today-snapshot aborts the daily ranking job, an
empty weekly window aborts the weekly job, and an empty identity registry
aborts the snapshot job — in every case with an error and an empty list
of store writes. -/
theorem C9_abort_before_any_upsert :
    (∀ (d : String) (dfPrev : List SnapEntry)
        (nameMap : String → Option String)
        (prevRankings : List PrevDailyRow) (prevCum : String → Option ℚ)
        (extras : String → String × String × String),
      rankingMain d [] dfPrev nameMap prevRankings prevCum extras =
        ([], some ("No snapshot data for " ++ d))) ∧
    (∀ (rows : List DailyRankRow) (week_end : ℤ)
        (nameMap : String → Option String)
        (prevWeekRank : String → Option ℚ),
      weeklyWindow rows week_end = [] →
      weeklyMain rows week_end nameMap prevWeekRank =
        ([], some "No cumulative_rankings data for the specified week.")) ∧
    (∀ (env0 env1 env2 env3 : CatalogEnv) (d : String),
      snapshotMain [] env0 env1 env2 env3 d =
        ([], some "No data found in imd.external_ids for service=spotify.")) := by
  refine ⟨?_, ?_, ?_⟩
  · intro d dfPrev nameMap prevRankings prevCum extras
    simp [rankingMain]
  · intro rows week_end nameMap prevWeekRank h
    simp [weeklyMain, h]
  · intro env0 env1 env2 env3 d
    simp [snapshotMain, fetch_spotify_ids]

/-- Witness for C9 at concrete runs: a daily run with no snapshot rows
for `2024-01-01`, a weekly run whose store rows all lie outside the
window `[1, 7]`, and a snapshot run with an empty identity registry —
each returns an error and performs zero writes. -/
theorem C9_abort_before_any_upsert_witness :
    rankingMain "2024-01-01" [] [] (fun _ => none) [] (fun _ => none)
        (fun _ => ("", "", "")) =
      ([], some "No snapshot data for 2024-01-01") ∧
    weeklyMain
        [{ snapshot_date := 100, group_id := "g1", score := some 1
           artist_popularity := some 40 }] 7 (fun _ => none)
        (fun _ => none) =
      ([], some "No cumulative_rankings data for the specified week.") ∧
    snapshotMain [] envAbsent envAbsent envAbsent envAbsent "2024-01-01" =
      ([], some "No data found in imd.external_ids for service=spotify.") :=
  ⟨C9_abort_before_any_upsert.1 "2024-01-01" [] (fun _ => none) []
      (fun _ => none) (fun _ => ("", "", "")),
    C9_abort_before_any_upsert.2.1 _ 7 (fun _ => none) (fun _ => none)
      (by decide),
    C9_abort_before_any_upsert.2.2 envAbsent envAbsent envAbsent envAbsent
      "2024-01-01"⟩

theorem fetch_snapshot_row_nrc_le (env : CatalogEnv) (sp : String) :
    (fetch_snapshot_row env sp).new_release_count ≤ 5 := by
  show count_recent_releases env.today
    (get_top_track_popularities (env.topTracks sp)).1 7 ≤ 5
  have h1 : (get_top_track_popularities (env.topTracks sp)).1.length ≤ 5 := by
    cases htt : env.topTracks sp with
    | none => simp [get_top_track_popularities]
    | some tracks =>
        simp only [get_top_track_popularities]
        simp [List.length_take]
  exact le_trans (List.countP_le_length _) h1

theorem mem_fetch_snapshot {env : CatalogEnv} {ids : List (String × String)}
    {r : String × SnapVals} (h : r ∈ fetch_snapshot env ids) :
    r.2 = fetch_snapshot_row env r.1 := by
  rw [fetch_snapshot] at h
  obtain ⟨p, _, hp⟩ := List.mem_map.mp h
  rw [← hp]

theorem mem_updateRows {cur retry : List (String × SnapVals)}
    {r : String × SnapVals} (h : r ∈ updateRows cur retry) :
    r ∈ cur ∨ ∃ s ∈ retry, r.2.new_release_count = s.2.new_release_count := by
  rw [updateRows] at h
  obtain ⟨x, hx, hmap⟩ := List.mem_map.mp h
  cases hfind : retry.find? (fun s => s.1 == x.1) with
  | none =>
      rw [hfind] at hmap
      exact Or.inl (hmap ▸ hx)
  | some s =>
      rw [hfind] at hmap
      refine Or.inr ⟨s, List.mem_of_find?_eq_some hfind, ?_⟩
      rw [← hmap]

theorem retryRound_nrc_le {ids : List (String × String)} {env : CatalogEnv}
    {cur : List (String × SnapVals)}
    (h : ∀ r ∈ cur, r.2.new_release_count ≤ 5) :
    ∀ r ∈ retryRound ids env cur, r.2.new_release_count ≤ 5 := by
  intro r hr
  rw [retryRound] at hr
  split at hr
  · exact h r hr
  · rcases mem_updateRows hr with hc | ⟨s, hs, heq⟩
    · exact h r hc
    · rw [heq, mem_fetch_snapshot hs]
      exact fetch_snapshot_row_nrc_le env s.1

theorem mem_dedupKeepLast {α β : Type} [DecidableEq β] {key : α → β}
    {l : List α} {a : α} (h : a ∈ dedupKeepLast key l) : a ∈ l := by
  rw [dedupKeepLast] at h
  exact List.mem_reverse.mp
    (dedupKeepFirst_subset key _ (List.mem_reverse.mp h))

theorem snapshotRows_nrc_le (ids : List (String × String))
    (env0 env1 env2 env3 : CatalogEnv) :
    ∀ r ∈ snapshotRows ids env0 env1 env2 env3,
      r.2.new_release_count ≤ 5 := by
  intro r hr
  rw [snapshotRows] at hr
  refine retryRound_nrc_le (retryRound_nrc_le (retryRound_nrc_le ?_))
    r (mem_dedupKeepLast hr)
  intro s hs
  rw [mem_fetch_snapshot hs]
  exact fetch_snapshot_row_nrc_le env0 s.1

/-- C10: every `artist_snapshots` record produced by a snapshot run has
`new_release_count` between 0 and 5 inclusive: recent releases are
counted only among the albums of at most the artist's top 5 top tracks
(`top_n = 5`), never over the full catalog. -/
theorem C10_new_release_count_bound (ids : List (String × String))
    (env0 env1 env2 env3 : CatalogEnv) (d : String) (rec : SnapshotRecord)
    (h : rec ∈ upsertSnapshotRecords
      (snapshotRows ids env0 env1 env2 env3) ids d) :
    0 ≤ rec.new_release_count ∧ rec.new_release_count ≤ 5 := by
  rw [upsertSnapshotRecords] at h
  obtain ⟨rg, hrg, hrec⟩ := List.mem_map.mp h
  obtain ⟨r, hr, hatt⟩ := List.mem_filterMap.mp hrg
  have hbound : r.2.new_release_count ≤ 5 :=
    snapshotRows_nrc_le ids env0 env1 env2 env3 r hr
  have hfield : rec.new_release_count = (r.2.new_release_count : ℤ) := by
    rw [← hrec]
    cases hg : groupLookup ids r.1 with
    | none => rw [hg] at hatt; simp at hatt
    | some g =>
        rw [hg] at hatt
        simp only [Option.map_some'] at hatt
        obtain rfl := Option.some.inj hatt
        rfl
  rw [hfield]
  exact ⟨Int.natCast_nonneg _, by exact_mod_cast hbound⟩

/-- Witness for C10: an artist with seven releases on collection day
among its top tracks still records `new_release_count = 5` — the count is
capped by the five top tracks considered, and the bound theorem applies
to the produced record. -/
theorem C10_new_release_count_bound_witness :
    ({ snapshot_date := "2024-01-01", group_id := "g1", spotify_id := "sp1"
       name := "A", artist_popularity := 50, followers := 100
       track_popularity_sum := 50
       new_release_count := 5 } : SnapshotRecord) ∈
      upsertSnapshotRecords
        (snapshotRows [("sp1", "g1")] envSevenRecent envSevenRecent
          envSevenRecent envSevenRecent)
        [("sp1", "g1")] "2024-01-01" ∧
    (0 ≤ ({ snapshot_date := "2024-01-01", group_id := "g1"
            spotify_id := "sp1", name := "A", artist_popularity := 50
            followers := 100, track_popularity_sum := 50
            new_release_count := 5 } : SnapshotRecord).new_release_count ∧
      ({ snapshot_date := "2024-01-01", group_id := "g1"
         spotify_id := "sp1", name := "A", artist_popularity := 50
         followers := 100, track_popularity_sum := 50
         new_release_count := 5 } : SnapshotRecord).new_release_count ≤ 5) := by
  have hmem :
      ({ snapshot_date := "2024-01-01", group_id := "g1"
         spotify_id := "sp1", name := "A", artist_popularity := 50
         followers := 100, track_popularity_sum := 50
         new_release_count := 5 } : SnapshotRecord) ∈
        upsertSnapshotRecords
          (snapshotRows [("sp1", "g1")] envSevenRecent envSevenRecent
            envSevenRecent envSevenRecent)
          [("sp1", "g1")] "2024-01-01" := by
    decide
  exact ⟨hmem,
    C10_new_release_count_bound [("sp1", "g1")] envSevenRecent envSevenRecent
      envSevenRecent envSevenRecent "2024-01-01" _ hmem⟩

theorem dedupKeepLast_keys_nodup {α β : Type} [DecidableEq β]
    (key : α → β) (l : List α) :
    ((dedupKeepLast key l).map key).Nodup := by
  rw [dedupKeepLast, List.map_reverse, List.nodup_reverse]
  exact dedupKeepFirst_keys_nodup key l.reverse

theorem groupLookup_eq_some {ids : List (String × String)} {sp g : String}
    (h : groupLookup ids sp = some g) :
    ∃ p ∈ ids, p.1 = sp ∧ p.2 = g := by
  rw [groupLookup] at h
  cases hfind : ids.find? (fun p => p.1 == sp) with
  | none => rw [hfind] at h; simp at h
  | some p =>
      rw [hfind] at h
      simp only [Option.map_some'] at h
      refine ⟨p, List.mem_of_find?_eq_some hfind, ?_, Option.some.inj h⟩
      have := List.find?_some hfind
      simpa using this

/-- C8 as stated is refuted on a roster in which two distinct catalog ids
map to the same group id: `fetch_spotify_ids` deduplicates by
`spotify_id` only, so it keeps both rows, and `upsert_snapshots` then
submits two records with the same `(snapshot_date, group_id)` key. -/
theorem C8_duplicate_key_counterexample :
    fetch_spotify_ids [("sp1", "g1"), ("sp2", "g1")] =
      Except.ok [("sp1", "g1"), ("sp2", "g1")] ∧
    ¬ ((upsertSnapshotRecords
        (snapshotRows [("sp1", "g1"), ("sp2", "g1")] envAbsent envAbsent
          envAbsent envAbsent)
        [("sp1", "g1"), ("sp2", "g1")] "2024-01-01").map
      (fun rec => (rec.snapshot_date, rec.group_id))).Nodup := by
  constructor
  · rfl
  · decide

/-- C8, amended: for every roster whose identity mapping sends distinct
catalog ids to distinct group ids, the records submitted for upsert by a
snapshot run contain at most one record per `(snapshot_date, group_id)`
key. -/
theorem C8_unique_upsert_keys (rawIds ids : List (String × String))
    (env0 env1 env2 env3 : CatalogEnv) (d : String)
    (hids : fetch_spotify_ids rawIds = Except.ok ids)
    (hinj : ∀ p ∈ rawIds, ∀ q ∈ rawIds, p.1 ≠ q.1 → p.2 ≠ q.2) :
    ((upsertSnapshotRecords (snapshotRows ids env0 env1 env2 env3) ids d).map
      (fun rec => (rec.snapshot_date, rec.group_id))).Nodup := by
  have hsub : ∀ p ∈ ids, p ∈ rawIds := by
    rw [fetch_spotify_ids] at hids
    split at hids
    · exact absurd hids (by simp)
    · intro p hp
      exact dedupKeepFirst_subset Prod.fst rawIds
        ((Except.ok.inj hids) ▸ hp)
  have hinj2 : ∀ p ∈ ids, ∀ q ∈ ids, p.1 ≠ q.1 → p.2 ≠ q.2 :=
    fun p hp q hq => hinj p (hsub p hp) q (hsub q hq)
  have hfstnd : ((snapshotRows ids env0 env1 env2 env3).map
      Prod.fst).Nodup := by
    rw [snapshotRows]
    exact dedupKeepLast_keys_nodup Prod.fst _
  have hpw : (snapshotRows ids env0 env1 env2 env3).Pairwise
      (fun a b => a.1 ≠ b.1) := List.pairwise_map.mp hfstnd
  rw [upsertSnapshotRecords, List.map_map]
  refine List.pairwise_map.mpr (List.pairwise_filterMap.mpr ?_)
  refine hpw.imp ?_
  intro a b hab x hx y hy
  simp only [Option.mem_def] at hx hy
  cases hga : groupLookup ids a.1 with
  | none => rw [hga] at hx; simp at hx
  | some ga =>
      cases hgb : groupLookup ids b.1 with
      | none => rw [hgb] at hy; simp at hy
      | some gb =>
          rw [hga] at hx
          rw [hgb] at hy
          simp only [Option.map_some'] at hx hy
          obtain rfl := Option.some.inj hx
          obtain rfl := Option.some.inj hy
          obtain ⟨p, hp, hp1, hp2⟩ := groupLookup_eq_some hga
          obtain ⟨q, hq, hq1, hq2⟩ := groupLookup_eq_some hgb
          have hground : ga ≠ gb := by
            rw [← hp2, ← hq2]
            exact hinj2 p hp q hq (by rw [hp1, hq1]; exact hab)
          intro hkey
          exact hground (congrArg Prod.snd hkey)

/-- Witness for the amended C8 on a roster whose two catalog ids map to
distinct group ids: the submitted records carry pairwise distinct
`(snapshot_date, group_id)` keys. -/
theorem C8_unique_upsert_keys_witness :
    ((upsertSnapshotRecords
        (snapshotRows [("sp1", "g1"), ("sp2", "g2")] envAbsent envAbsent
          envAbsent envAbsent)
        [("sp1", "g1"), ("sp2", "g2")] "2024-01-01").map
      (fun rec => (rec.snapshot_date, rec.group_id))).Nodup :=
  C8_unique_upsert_keys [("sp1", "g1"), ("sp2", "g2")]
    [("sp1", "g1"), ("sp2", "g2")] envAbsent envAbsent envAbsent envAbsent
    "2024-01-01" rfl (by decide)

end Imakite
